import Mathlib

/-!
A shallow embedding of the mobile client's domain state container
(the remote variant of `src/store/AppStore.tsx`) and of the realtime chat
client (`src/services/chatRealtime.ts`), together with theorems checking
the specification's claims about them.

Conventions of the embedding:
* ISO-8601 timestamps are modelled as natural numbers; the ordering used
  by `Date.getTime` comparisons is preserved.
* Remote API calls are modelled by passing the call's outcome
  (`Except String α`) as an explicit argument; `.error e` corresponds to a
  thrown error / rejected promise with message `e`.
* JavaScript truthiness on optional strings (`undefined` and `""` are
  falsy) is modelled by `optStrTruthy`.
* Values of `new Date().toISOString()` and `Date.now()`-derived fresh
  message ids are passed as explicit `now` / fresh-id arguments.
-/

namespace SmartService

/-- `ConversationStatus` from `src/types/domain.ts`. -/
inductive ConversationStatus where
  | new
  | assigned
  | waiting
  | closed
deriving DecidableEq

/-- `SenderType` from `src/types/domain.ts`. -/
inductive SenderType where
  | visitor
  | pm
  | bot
  | system
deriving DecidableEq

/-- `MaintenanceStatus` from `src/types/domain.ts`. -/
inductive MaintenanceStatus where
  | new
  | in_progress
  | done
deriving DecidableEq

/-- Priority of a maintenance request (`'low' | 'medium' | 'high'`). -/
inductive Priority where
  | low
  | medium
  | high
deriving DecidableEq

/-- Role of a signed-in user (`PmUser['role']`). -/
inductive Role where
  | PM
  | Supervisor
  | Tenant
  | Landlord
deriving DecidableEq

/-- Source tag of a visit note / maintenance update
(`'visit' | 'chat' | 'maintenance'`). -/
inductive NoteSource where
  | visit
  | chat
  | maintenance
deriving DecidableEq

/-- `PmUser` from `src/types/domain.ts`. -/
structure PmUser where
  id : String
  name : String
  email : String
  role : Role
deriving DecidableEq

/-- `PropertyInfo` from `src/types/domain.ts` (embedded summary). -/
structure PropertyInfo where
  id : String
  name : String
  city : String
  address : String
  dataverseUrl : String
deriving DecidableEq

/-- `UnitInfo` from `src/types/domain.ts` (embedded summary). -/
structure UnitInfo where
  id : String
  label : String
  bedrooms : Nat
  bathrooms : Nat
  rent : Nat
deriving DecidableEq

/-- `Message` from `src/types/domain.ts` (with the optional `photoUri`
field used by the remote store variant). -/
structure Message where
  id : String
  conversationId : String
  senderType : SenderType
  senderName : String
  body : String
  photoUri : Option String
  createdAt : Nat
deriving DecidableEq

/-- `MaintenanceRequest` from `src/types/domain.ts`. -/
structure MaintenanceRequest where
  id : String
  conversationId : Option String
  propertyId : String
  unitId : String
  title : String
  summary : String
  status : MaintenanceStatus
  priority : Priority
  dataverseUrl : String
  updatedAt : Nat
deriving DecidableEq

/-- `SiteVisitNote` from `src/types/domain.ts`, with the `photoUris`,
`source` and `authorName` fields used by the remote store variant.
An absent `photoUris` array is modelled as `[]`. -/
structure SiteVisitNote where
  id : String
  propertyId : String
  unitId : String
  maintenanceRequestId : Option String
  note : String
  photoUri : Option String
  photoUris : List String
  source : Option NoteSource
  authorName : Option String
  createdAt : Nat
deriving DecidableEq

/-- `Conversation` from `src/types/domain.ts`. -/
structure Conversation where
  id : String
  visitorAlias : String
  status : ConversationStatus
  property : PropertyInfo
  unit : UnitInfo
  assignedPmId : Option String
  hasBot : Bool
  botEscalated : Bool
  unreadCount : Nat
  lastMessageAt : Nat
  dataverseCaseUrl : Option String
deriving DecidableEq

/-- Helper for `jsTrim`: drops leading whitespace characters. -/
def dropLeadingWs : List Char → List Char
  | [] => []
  | c :: cs => if c.isWhitespace then dropLeadingWs cs else c :: cs

/-- `String.prototype.trim`: strips leading and trailing whitespace.
Defined on the underlying character list so that it evaluates by `decide`. -/
def jsTrim (s : String) : String :=
  ⟨(dropLeadingWs (dropLeadingWs s.data.reverse).reverse)⟩

/-- JavaScript truthiness of an optional string: `undefined` and the empty
string are falsy, every other string is truthy. -/
def optStrTruthy : Option String → Bool
  | none => false
  | some s => s ≠ ""

/-- Insertion of a conversation into a list already sorted by descending
`lastMessageAt`; helper for `sortConversations`. -/
def insertConv (c : Conversation) : List Conversation → List Conversation
  | [] => [c]
  | d :: ds =>
    if d.lastMessageAt ≤ c.lastMessageAt then c :: d :: ds
    else d :: insertConv c ds

/-- `sortConversations` from `src/store/AppStore.tsx`: returns a copy of
the list sorted by descending `lastMessageAt` (the comparator
`(a, b) => getTime(b.lastMessageAt) - getTime(a.lastMessageAt)`),
modelled as an insertion sort. -/
def sortConversations : List Conversation → List Conversation
  | [] => []
  | c :: cs => insertConv c (sortConversations cs)

theorem insertConv_perm (c : Conversation) (l : List Conversation) :
    (insertConv c l).Perm (c :: l) := by
  induction l with
  | nil => simp [insertConv]
  | cons d ds ih =>
    simp only [insertConv]
    split
    · exact List.Perm.refl _
    · exact (List.Perm.cons d ih).trans (List.Perm.swap c d ds)

theorem sortConversations_perm (l : List Conversation) :
    (sortConversations l).Perm l := by
  induction l with
  | nil => exact List.Perm.refl _
  | cons c cs ih =>
    exact (insertConv_perm c (sortConversations cs)).trans (List.Perm.cons c ih)

theorem mem_sortConversations {c : Conversation} {l : List Conversation} :
    c ∈ sortConversations l ↔ c ∈ l :=
  (sortConversations_perm l).mem_iff

/-- `isPmRole` from `src/store/AppStore.tsx`: true exactly for the
`PM` and `Supervisor` roles (`undefined` is not a PM role). -/
def isPmRole : Option Role → Bool
  | some .PM => true
  | some .Supervisor => true
  | _ => false

/-- The in-memory state owned by the app store provider: the current user
and the four entity lists. -/
structure AppState where
  currentUser : Option PmUser
  conversations : List Conversation
  messages : List Message
  maintenanceRequests : List MaintenanceRequest
  visitNotes : List SiteVisitNote
deriving DecidableEq

/-- `initialConversations` in the remote store variant: the empty list. -/
def initialConversations : List Conversation := []

/-- `initialMessages` in the remote store variant: the empty list. -/
def initialMessages : List Message := []

/-- `initialMaintenanceRequests` in the remote store variant. -/
def initialMaintenanceRequests : List MaintenanceRequest := []

/-- `initialVisitNotes` in the remote store variant. -/
def initialVisitNotes : List SiteVisitNote := []

/-- `signOut` from `src/store/AppStore.tsx` (remote variant): clears the
auth token (external effect, not part of the state record), the current
user, and resets the four lists to their initial values. -/
def signOut (_s : AppState) : AppState :=
  { currentUser := none
    conversations := initialConversations
    messages := initialMessages
    maintenanceRequests := initialMaintenanceRequests
    visitNotes := initialVisitNotes }

/-- The per-item updater of `markConversationRead`. -/
def markReadUpdate (conversationId : String) (item : Conversation) : Conversation :=
  if item.id = conversationId then { item with unreadCount := 0 } else item

/-- `markConversationRead` from `src/store/AppStore.tsx`: zeroes the
unread counter of the matching conversation; purely local. -/
def markConversationRead (s : AppState) (conversationId : String) : AppState :=
  { s with conversations := s.conversations.map (markReadUpdate conversationId) }

/-- `RealtimeMessagePayload` from `src/services/chatRealtime.ts`. -/
structure RealtimeMessagePayload where
  id : Option String
  conversationId : String
  senderType : SenderType
  senderName : String
  body : String
  photoUri : Option String
  createdAt : Option Nat
deriving DecidableEq

/-- The wire spelling of a sender type, as it appears interpolated into
the synthesized realtime message id. -/
def senderTypeText : SenderType → String
  | .visitor => "visitor"
  | .pm => "pm"
  | .bot => "bot"
  | .system => "system"

/-- The message id resolved by `applyRealtimeMessage`: the payload's own
id when present, otherwise the synthesized
`rt-<conversationId>-<createdAt>-<senderType>-<senderName>` template. -/
def realtimeMessageId (p : RealtimeMessagePayload) (createdAt : Nat) : String :=
  p.id.getD
    ("rt-" ++ p.conversationId ++ "-" ++ toString createdAt ++ "-"
      ++ senderTypeText p.senderType ++ "-" ++ p.senderName)

/-- Whether an inbound payload counts as incoming activity that bumps the
unread counter in `applyRealtimeMessage`: from a visitor or the bot, or
from a PM other than the current user (an absent current user compares
unequal to any sender name, as `undefined` does in the source). -/
def bumpsUnread (currentUser : Option PmUser) (p : RealtimeMessagePayload) : Bool :=
  (p.senderType = .visitor || p.senderType = .bot)
    || (p.senderType = .pm
        && (match currentUser with
            | none => true
            | some u => p.senderName ≠ u.name))

/-- The per-item conversation updater of `applyRealtimeMessage`. -/
def realtimeConvUpdate (currentUser : Option PmUser) (p : RealtimeMessagePayload)
    (createdAt : Nat) (item : Conversation) : Conversation :=
  if item.id = p.conversationId then
    { item with
      lastMessageAt := createdAt
      unreadCount :=
        if bumpsUnread currentUser p then item.unreadCount + 1
        else item.unreadCount }
  else item

/-- `applyRealtimeMessage` from `src/store/AppStore.tsx` (remote variant):
appends the payload as a message unless its resolved id is already stored,
and re-stamps the matching conversation's `lastMessageAt`, incrementing
its unread counter for incoming senders. `localNow` models
`new Date().toISOString()` used when the payload carries no timestamp.
The local-notification side effect is external and not part of the state. -/
def applyRealtimeMessage (s : AppState) (p : RealtimeMessagePayload)
    (localNow : Nat) : AppState :=
  let createdAt := p.createdAt.getD localNow
  let messageId := realtimeMessageId p createdAt
  { s with
    messages :=
      if s.messages.any (fun item => item.id == messageId) then s.messages
      else
        s.messages ++
          [{ id := messageId
             conversationId := p.conversationId
             senderType := p.senderType
             senderName := p.senderName
             body := p.body
             photoUri := p.photoUri
             createdAt := createdAt }]
    conversations :=
      sortConversations
        (s.conversations.map (realtimeConvUpdate s.currentUser p createdAt)) }

/-- The `socket.onmessage` handler installed by `connectChatRealtime`
(`src/services/chatRealtime.ts`), composed with the `onMessage` callback
wired in by `connectConversationRealtime` (which is `applyRealtimeMessage`).
`decoded` is the outcome of `JSON.parse` on the frame: `none` models a
frame whose data is not valid JSON. The second component is the message
passed to the caller-supplied `onError` callback, if any. -/
def handleRealtimeFrame (s : AppState) (decoded : Option RealtimeMessagePayload)
    (localNow : Nat) : AppState × Option String :=
  match decoded with
  | some payload => (applyRealtimeMessage s payload localNow, none)
  | none => (s, some "Unable to parse incoming chat payload.")

/-- Duplicate removal keeping the first occurrence, with an accumulator of
already-seen values; models the insertion-order semantics of a JavaScript
`Set`. -/
def dedupFirstAux : List String → List String → List String
  | [], _ => []
  | x :: xs, seen =>
    if x ∈ seen then dedupFirstAux xs seen
    else x :: dedupFirstAux xs (x :: seen)

/-- Duplicate removal keeping the first occurrence
(`Array.from(new Set(values))`). -/
def dedupFirst (l : List String) : List String :=
  dedupFirstAux l []

/-- `normalizePhotoUris` from `src/store/AppStore.tsx`: appends the
fallback single `photoUri` (absent modelled as `""`), trims every entry,
drops empty entries, removes duplicates keeping first occurrences, and
caps the result at 8 entries. -/
def normalizePhotoUris (photoUris : List String) (fallbackPhotoUri : Option String) :
    List String :=
  let values :=
    ((photoUris ++ [fallbackPhotoUri.getD ""]).map jsTrim).filter (· ≠ "")
  (dedupFirst values).take 8

/-- `getPrimaryPhotoUri` from `src/store/AppStore.tsx`: the first entry of
a photo-uri list, or `undefined` when the list is empty. -/
def getPrimaryPhotoUri (photoUris : List String) : Option String :=
  if 0 < photoUris.length then photoUris.head? else none

/-- The per-item conversation updater of `assignConversation`. -/
def assignConvUpdate (userId conversationId : String) (now : Nat)
    (item : Conversation) : Conversation :=
  if item.id = conversationId then
    { item with
      status := .assigned
      assignedPmId := some userId
      lastMessageAt := now
      unreadCount := 0 }
  else item

/-- `assignConversation` from `src/store/AppStore.tsx` (remote variant).
`remote` is the outcome of `remoteApi.assignConversation`; `now` models
`new Date().toISOString()` and `freshMsgId` the `msg-${Date.now()}` id. -/
def assignConversation (s : AppState) (conversationId : String)
    (remote : Except String Unit) (now : Nat) (freshMsgId : String) :
    Except String AppState :=
  match s.currentUser with
  | none => .error "Please sign in before assigning conversations."
  | some currentUser =>
    if isPmRole (some currentUser.role) then
      match remote with
      | .error e => .error e
      | .ok _ =>
        .ok { s with
          conversations :=
            sortConversations
              (s.conversations.map (assignConvUpdate currentUser.id conversationId now))
          messages :=
            s.messages ++
              [{ id := freshMsgId
                 conversationId := conversationId
                 senderType := .system
                 senderName := "System"
                 body := currentUser.name ++ " accepted handoff from bot."
                 photoUri := none
                 createdAt := now }] }
    else .error "Please sign in before assigning conversations."

/-- The per-item conversation updater of `closeConversation`. -/
def closeConvUpdate (conversationId : String) (now : Nat)
    (item : Conversation) : Conversation :=
  if item.id = conversationId then
    { item with
      status := .closed
      unreadCount := 0
      lastMessageAt := now }
  else item

/-- `closeConversation` from `src/store/AppStore.tsx` (remote variant). -/
def closeConversation (s : AppState) (conversationId : String)
    (remote : Except String Unit) (now : Nat) (freshMsgId : String) :
    Except String AppState :=
  if isPmRole (s.currentUser.map PmUser.role) then
    match remote with
    | .error e => .error e
    | .ok _ =>
      .ok { s with
        conversations :=
          sortConversations
            (s.conversations.map (closeConvUpdate conversationId now))
        messages :=
          s.messages ++
            [{ id := freshMsgId
               conversationId := conversationId
               senderType := .system
               senderName := "System"
               body := "Conversation closed by property manager."
               photoUri := none
               createdAt := now }] }
  else .error "Only PM/Supervisor can close conversations."

/-- `resolveLinkedMaintenanceRequest` from `src/store/AppStore.tsx`: first
maintenance request linked to the conversation by `conversationId`, else
the first one matching the conversation's property and unit ids. -/
def resolveLinkedMaintenanceRequest (s : AppState) (conversationId : String) :
    Option MaintenanceRequest :=
  match s.maintenanceRequests.find?
      (fun item => item.conversationId == some conversationId) with
  | some byConversation => some byConversation
  | none =>
    match s.conversations.find? (fun item => item.id == conversationId) with
    | none => none
    | some conversation =>
      s.maintenanceRequests.find? fun item =>
        item.propertyId == conversation.property.id
          && item.unitId == conversation.unit.id

/-- `applyMaintenanceNoteState` from `src/store/AppStore.tsx`: prepends the
note to the visit-note list and, when it carries a (truthy) maintenance
request id, bumps that request's `updatedAt` to the note's `createdAt`. -/
def applyMaintenanceNoteState (s : AppState) (note : SiteVisitNote) : AppState :=
  { s with
    visitNotes := note :: s.visitNotes
    maintenanceRequests :=
      if optStrTruthy note.maintenanceRequestId then
        match note.maintenanceRequestId with
        | none => s.maintenanceRequests
        | some rid =>
          s.maintenanceRequests.map fun item =>
            if item.id = rid then { item with updatedAt := note.createdAt }
            else item
      else s.maintenanceRequests }

/-- `AddMaintenanceUpdateInput` from `src/store/AppStore.tsx`. -/
structure AddMaintenanceUpdateInput where
  maintenanceRequestId : String
  note : Option String
  photoUri : Option String
  photoUris : List String
  source : Option NoteSource
deriving DecidableEq

/-- Request body sent to `POST /mobile/pm/maintenance/:id/updates`
(`MaintenanceUpdateInput` in `src/services/remoteApi.ts`). -/
structure MaintenanceUpdateRequest where
  note : String
  photoUri : Option String
  photoUris : List String
  source : NoteSource
deriving DecidableEq

/-- The local phase of `addMaintenanceUpdate`, up to the remote call:
sign-in check, lookup of the maintenance request, photo normalization and
the note-or-photo validation. On success returns the acting user together
with the request body handed to `remoteApi.addMaintenanceUpdate`. -/
def addMaintenanceUpdateRequest (s : AppState) (p : AddMaintenanceUpdateInput) :
    Except String (PmUser × MaintenanceUpdateRequest) :=
  match s.currentUser with
  | none => .error "Please sign in before adding updates."
  | some currentUser =>
    match s.maintenanceRequests.find?
        (fun item => item.id == p.maintenanceRequestId) with
    | none => .error "Maintenance request not found."
    | some _request =>
      let normalizedPhotoUris := normalizePhotoUris p.photoUris p.photoUri
      let noteText := jsTrim (p.note.getD "")
      if noteText = "" ∧ normalizedPhotoUris = [] then
        .error "Add a note or photo before saving."
      else
        .ok (currentUser,
          { note :=
              if noteText = "" then currentUser.name ++ " added a photo update."
              else noteText
            photoUri := getPrimaryPhotoUri normalizedPhotoUris
            photoUris := normalizedPhotoUris
            source := p.source.getD .maintenance })

/-- Reconciliation of the server's saved note inside
`addMaintenanceUpdate`: photo normalization plus the `source` and
`authorName` fallbacks applied before `applyMaintenanceNoteState`. -/
def mergeMaintenanceUpdateResponse (authorFallback : String)
    (fallbackSource : NoteSource) (saved : SiteVisitNote) : SiteVisitNote :=
  let normalized := normalizePhotoUris saved.photoUris saved.photoUri
  { saved with
    photoUris := normalized
    photoUri := getPrimaryPhotoUri normalized
    source := some (saved.source.getD fallbackSource)
    authorName := some (saved.authorName.getD authorFallback) }

/-- `addMaintenanceUpdate` from `src/store/AppStore.tsx`. `remote` is the
outcome of `remoteApi.addMaintenanceUpdate`. -/
def addMaintenanceUpdate (s : AppState) (p : AddMaintenanceUpdateInput)
    (remote : Except String SiteVisitNote) : Except String AppState :=
  match addMaintenanceUpdateRequest s p with
  | .error e => .error e
  | .ok (currentUser, body) =>
    match remote with
    | .error e => .error e
    | .ok saved =>
      .ok (applyMaintenanceNoteState s
        (mergeMaintenanceUpdateResponse currentUser.name body.source saved))

/-- The `conversation?.status === 'closed'` guard of `sendMessage`: looks
up the first conversation with the given id and checks whether it is
closed (`false` when no conversation matches). -/
def conversationIsClosed (convs : List Conversation) (conversationId : String) : Bool :=
  match convs.find? (fun item => item.id == conversationId) with
  | some conversation => conversation.status == ConversationStatus.closed
  | none => false

/-- The per-item conversation updater of `sendMessage`: a PM sender moves
`new` to `assigned` (otherwise keeps the status) and takes the
assignment; a non-PM sender moves any non-closed status to `waiting`. -/
def sendConvUpdate (actingAsPm : Bool) (userId conversationId : String)
    (now : Nat) (item : Conversation) : Conversation :=
  if item.id = conversationId then
    { item with
      status :=
        if actingAsPm then
          if item.status = .new then .assigned else item.status
        else
          if item.status = .closed then .closed else .waiting
      assignedPmId := if actingAsPm then some userId else item.assignedPmId
      lastMessageAt := now
      unreadCount := 0 }
  else item

/-- Outcome of one `sendMessage` call: the error it threw (if any), the
store state afterwards, and whether any remote call was issued. A thrown
local validation error leaves the state untouched because every `setState`
in the source runs after the guards. -/
structure SendEffect where
  thrown : Option String
  state : AppState
  networkCalled : Bool
deriving DecidableEq

/-- `sendMessage` from `src/store/AppStore.tsx` (remote variant). `remote`
is the outcome of `remoteApi.sendMessage`; `maintRemote` the outcome of
`remoteApi.addMaintenanceUpdate` inside the best-effort photo auto-link
(whose failure is swallowed). The closures of
`resolveLinkedMaintenanceRequest` and `addMaintenanceUpdate` capture the
render-time lists, so their lookups read the pre-send state `s`, while
their functional `setState` updates land on the post-send state. -/
def sendMessage (s : AppState) (conversationId : String) (text : String)
    (photoUri : Option String) (_forceSendIfInactive : Bool)
    (remote : Except String Message)
    (maintRemote : Except String SiteVisitNote) : SendEffect :=
  match s.currentUser with
  | none => { thrown := none, state := s, networkCalled := false }
  | some currentUser =>
    let hasPhoto := optStrTruthy photoUri
    let trimmedText := jsTrim text
    if trimmedText = "" ∧ hasPhoto = false then
      { thrown := none, state := s, networkCalled := false }
    else
      if conversationIsClosed s.conversations conversationId then
        { thrown := some "Cannot send a message to a closed conversation."
          state := s
          networkCalled := false }
      else
        let _body := if trimmedText = "" then "Shared a photo." else trimmedText
        let actingAsPm := isPmRole (some currentUser.role)
        match remote with
        | .error e => { thrown := some e, state := s, networkCalled := true }
        | .ok message =>
          let now := message.createdAt
          let afterSend : AppState :=
            { s with
              messages := s.messages ++ [{ message with createdAt := now }]
              conversations :=
                sortConversations
                  (s.conversations.map
                    (sendConvUpdate actingAsPm currentUser.id conversationId now)) }
          if hasPhoto then
            match resolveLinkedMaintenanceRequest s conversationId with
            | none => { thrown := none, state := afterSend, networkCalled := true }
            | some linkedRequest =>
              match addMaintenanceUpdateRequest s
                  { maintenanceRequestId := linkedRequest.id
                    note := some (currentUser.name ++ " shared a photo in chat.")
                    photoUri := photoUri
                    photoUris := []
                    source := some .chat } with
              | .error _ =>
                { thrown := none, state := afterSend, networkCalled := true }
              | .ok (author, linkBody) =>
                match maintRemote with
                | .error _ =>
                  { thrown := none, state := afterSend, networkCalled := true }
                | .ok saved =>
                  { thrown := none
                    state :=
                      applyMaintenanceNoteState afterSend
                        (mergeMaintenanceUpdateResponse author.name
                          linkBody.source saved)
                    networkCalled := true }
          else { thrown := none, state := afterSend, networkCalled := true }

/-- `AddVisitNoteInput` from `src/store/AppStore.tsx`; also the raw body
forwarded unchanged to `POST /mobile/pm/visit-notes`
(`VisitNoteInput` in `src/services/remoteApi.ts`). -/
structure AddVisitNoteInput where
  propertyId : String
  unitId : String
  maintenanceRequestId : Option String
  note : String
  photoUri : Option String
  photoUris : List String
deriving DecidableEq

/-- `BootstrapResponse` from `src/services/remoteApi.ts`. -/
structure BootstrapResponse where
  conversations : List Conversation
  messages : List Message
  maintenanceRequests : List MaintenanceRequest
  visitNotes : List SiteVisitNote
deriving DecidableEq

/-- The local phase of `addVisitNote`, up to the remote call: role gate
and the note-text validation. On success returns the acting user together
with the payload forwarded, unchanged, to `remoteApi.addVisitNote`. -/
def addVisitNoteRequest (s : AppState) (p : AddVisitNoteInput) :
    Except String (PmUser × AddVisitNoteInput) :=
  match s.currentUser with
  | none => .error "Only PM/Supervisor can add site visit notes."
  | some actingUser =>
    if isPmRole (some actingUser.role) then
      if jsTrim p.note = "" then .error "Please add note details before saving."
      else .ok (actingUser, p)
    else .error "Only PM/Supervisor can add site visit notes."

/-- `addVisitNote` from `src/store/AppStore.tsx` (remote variant).
`remote` is the outcome of `remoteApi.addVisitNote` and `bootstrap` the
outcome of the follow-up `remoteApi.getBootstrap` refresh. On success
returns the refreshed state together with the normalized saved note the
function returns to its caller. -/
def addVisitNote (s : AppState) (p : AddVisitNoteInput)
    (remote : Except String SiteVisitNote)
    (bootstrap : Except String BootstrapResponse) :
    Except String (AppState × SiteVisitNote) :=
  match addVisitNoteRequest s p with
  | .error e => .error e
  | .ok (actingUser, payload) =>
    match remote with
    | .error e => .error e
    | .ok saved =>
      let _ := payload
      let resolvedMaintenanceRequestId :=
        match saved.maintenanceRequestId with
        | none => none
        | some rid => if jsTrim rid = "" then none else some (jsTrim rid)
      match resolvedMaintenanceRequestId with
      | none =>
        .error "Visit note saved, but backend did not return linked maintenance request."
      | some rid =>
        let normalizedSavedPhotoUris := normalizePhotoUris saved.photoUris saved.photoUri
        let normalizedSaved : SiteVisitNote :=
          { saved with
            maintenanceRequestId := some rid
            photoUris := normalizedSavedPhotoUris
            photoUri := getPrimaryPhotoUri normalizedSavedPhotoUris
            source := some (saved.source.getD .visit)
            authorName := some (saved.authorName.getD actingUser.name) }
        let afterApply := applyMaintenanceNoteState s normalizedSaved
        match bootstrap with
        | .error e => .error e
        | .ok b =>
          .ok ({ afterApply with
                  conversations := sortConversations b.conversations
                  messages := b.messages
                  maintenanceRequests := b.maintenanceRequests
                  visitNotes := b.visitNotes },
                normalizedSaved)

theorem find_conv_of_nodup {l : List Conversation} {c : Conversation}
    (hnd : (l.map Conversation.id).Nodup) (hc : c ∈ l) :
    l.find? (fun item => item.id == c.id) = some c := by
  induction l with
  | nil => cases hc
  | cons a t ih =>
    rcases List.mem_cons.mp hc with rfl | hct
    · simp [List.find?]
    · have hne : a.id ≠ c.id := by
        intro h
        have : a.id ∈ t.map Conversation.id := h ▸ List.mem_map_of_mem _ hct
        exact (List.nodup_cons.mp (by simpa using hnd)).1 this
      have : (a.id == c.id) = false := beq_false_of_ne hne
      simp only [List.find?, this]
      exact ih (List.nodup_cons.mp (by simpa using hnd)).2 hct

theorem mem_map_sort {f : Conversation → Conversation} {l : List Conversation}
    {c : Conversation} (hc : c ∈ l) :
    f c ∈ sortConversations (l.map f) :=
  mem_sortConversations.mpr (List.mem_map_of_mem f hc)

theorem mem_dedupFirstAux {l seen : List String} {a : String}
    (h : a ∈ dedupFirstAux l seen) : a ∈ l ∧ a ∉ seen := by
  induction l generalizing seen with
  | nil => cases h
  | cons x xs ih =>
    by_cases hx : x ∈ seen
    · simp only [dedupFirstAux, if_pos hx] at h
      rcases ih h with ⟨h1, h2⟩
      exact ⟨List.mem_cons_of_mem _ h1, h2⟩
    · simp only [dedupFirstAux, if_neg hx] at h
      rcases List.mem_cons.mp h with rfl | h'
      · exact ⟨List.mem_cons_self _ _, hx⟩
      · rcases ih h' with ⟨h1, h2⟩
        refine ⟨List.mem_cons_of_mem _ h1, fun hs => h2 (List.mem_cons_of_mem _ hs)⟩

theorem nodup_dedupFirstAux (l : List String) (seen : List String) :
    (dedupFirstAux l seen).Nodup := by
  induction l generalizing seen with
  | nil => exact List.nodup_nil
  | cons x xs ih =>
    by_cases hx : x ∈ seen
    · simpa [dedupFirstAux, if_pos hx] using ih seen
    · simp only [dedupFirstAux, if_neg hx]
      refine List.nodup_cons.mpr ⟨fun hmem => ?_, ih (x :: seen)⟩
      exact (mem_dedupFirstAux hmem).2 (List.mem_cons_self _ _)

theorem mem_dedupFirst {l : List String} {a : String}
    (h : a ∈ dedupFirst l) : a ∈ l :=
  (mem_dedupFirstAux h).1

theorem nodup_dedupFirst (l : List String) : (dedupFirst l).Nodup :=
  nodup_dedupFirstAux l []

theorem length_normalizePhotoUris_le (ps : List String) (f : Option String) :
    (normalizePhotoUris ps f).length ≤ 8 :=
  List.length_take_le 8 _

theorem nodup_normalizePhotoUris (ps : List String) (f : Option String) :
    (normalizePhotoUris ps f).Nodup :=
  (List.take_sublist 8 _).nodup (nodup_dedupFirst _)

theorem mem_normalizePhotoUris {ps : List String} {f : Option String} {a : String}
    (h : a ∈ normalizePhotoUris ps f) :
    a ≠ "" ∧ a ∈ (ps ++ [f.getD ""]).map jsTrim := by
  have h1 : a ∈ dedupFirst (((ps ++ [f.getD ""]).map jsTrim).filter (· ≠ "")) :=
    List.take_subset 8 _ h
  have h2 := mem_dedupFirst h1
  have h3 := List.mem_filter.mp h2
  exact ⟨by simpa using h3.2, h3.1⟩

theorem normalizePhotoUris_ne_nil {ps : List String} {f : Option String}
    {u : String} (hu : u ∈ ps) (hne : jsTrim u ≠ "") :
    normalizePhotoUris ps f ≠ [] := by
  have hmem : jsTrim u ∈ ((ps ++ [f.getD ""]).map jsTrim).filter (· ≠ "") := by
    refine List.mem_filter.mpr ⟨?_, by simpa using hne⟩
    exact List.mem_map_of_mem _ (List.mem_append_left _ hu)
  intro hnil
  unfold normalizePhotoUris at hnil
  revert hmem hnil
  cases hval : ((ps ++ [f.getD ""]).map jsTrim).filter (· ≠ "") with
  | nil => intro hmem _; cases hmem
  | cons x xs =>
    intro _ hnil
    by_cases hx : x ∈ ([] : List String)
    · cases hx
    · simp [dedupFirst, dedupFirstAux, hx, List.take] at hnil

theorem getPrimaryPhotoUri_eq_head (l : List String) :
    getPrimaryPhotoUri l = l.head? := by
  cases l <;> simp [getPrimaryPhotoUri]

/-- Example property summary used by concrete test states. -/
def exProperty : PropertyInfo :=
  { id := "p1", name := "Maple Court", city := "Toronto",
    address := "1 Main St", dataverseUrl := "https://records.example/p1" }

/-- Example unit summary used by concrete test states. -/
def exUnit : UnitInfo :=
  { id := "u1", label := "Unit 101", bedrooms := 2, bathrooms := 1, rent := 1850 }

/-- Example PM user used by concrete test states. -/
def exPm : PmUser :=
  { id := "pm-1", name := "Alice Chen", email := "alice@example.com", role := .PM }

/-- Conversation builder for concrete test states. -/
def mkConv (id : String) (status : ConversationStatus)
    (assigned : Option String) (unread lastAt : Nat) : Conversation :=
  { id := id, visitorAlias := "Visitor 17", status := status,
    property := exProperty, unit := exUnit, assignedPmId := assigned,
    hasBot := true, botEscalated := false, unreadCount := unread,
    lastMessageAt := lastAt, dataverseCaseUrl := none }

/-- C1: after every call to `signOut`, regardless of the prior state, the
current user is `null` and all four entity lists (conversations, messages,
maintenance requests, visit notes) are empty. -/
theorem signOut_clears_session (s : AppState) :
    (signOut s).currentUser = none ∧
    (signOut s).conversations = [] ∧
    (signOut s).messages = [] ∧
    (signOut s).maintenanceRequests = [] ∧
    (signOut s).visitNotes = [] :=
  ⟨rfl, rfl, rfl, rfl, rfl⟩

/-- C8: for every inbound WebSocket frame whose data is not valid JSON
(`decoded = none`), the realtime client reports the decoding-failure
message through the caller-supplied `onError` callback and does not invoke
`onMessage`, so the store state — in particular the message list — is
unchanged; the handler returns normally instead of throwing. -/
theorem realtime_malformed_frame_reports_error (s : AppState) (localNow : Nat) :
    handleRealtimeFrame s none localNow =
      (s, some "Unable to parse incoming chat payload.") :=
  rfl

/-- C6: for every signed-in user and every conversation id, calling
`sendMessage` with whitespace-only text and no photo is a no-op: no
network call occurs and the state (message list and conversation list
included) is unchanged. -/
theorem sendMessage_whitespace_noop (s : AppState) (u : PmUser)
    (conversationId text : String) (force : Bool)
    (remote : Except String Message) (maintRemote : Except String SiteVisitNote)
    (hu : s.currentUser = some u) (ht : jsTrim text = "") :
    sendMessage s conversationId text none force remote maintRemote =
      { thrown := none, state := s, networkCalled := false } := by
  unfold sendMessage
  rw [hu]
  simp [optStrTruthy, ht]

/-- Concrete state for the C6 witness. -/
def c6State : AppState :=
  { currentUser := some exPm, conversations := [mkConv "c1" .new none 2 3],
    messages := [], maintenanceRequests := [], visitNotes := [] }

/-- Witness for C6 at a concrete signed-in state and whitespace text. -/
theorem sendMessage_whitespace_noop_witness :
    c6State.currentUser = some exPm ∧ jsTrim "  " = "" ∧
    sendMessage c6State "c1" "  " none false (.error "network down")
        (.error "network down") =
      { thrown := none, state := c6State, networkCalled := false } :=
  ⟨rfl, by decide,
    sendMessage_whitespace_noop c6State exPm "c1" "  " false
      (.error "network down") (.error "network down") rfl (by decide)⟩

/-- C9: for every inbound realtime payload whose resolved message id
already occurs in the message list, `applyRealtimeMessage` leaves the
message list unchanged; consequently the handler never stores two
messages with the same id (it preserves distinctness of stored ids). -/
theorem applyRealtimeMessage_dedup (s : AppState) (p : RealtimeMessagePayload)
    (localNow : Nat) :
    ((s.messages.any fun item =>
        item.id == realtimeMessageId p (p.createdAt.getD localNow)) = true →
      (applyRealtimeMessage s p localNow).messages = s.messages) ∧
    ((s.messages.map Message.id).Nodup →
      ((applyRealtimeMessage s p localNow).messages.map Message.id).Nodup) := by
  constructor
  · intro h
    unfold applyRealtimeMessage
    simp only []
    rw [if_pos h]
  · intro hnd
    by_cases h : (s.messages.any fun item =>
        item.id == realtimeMessageId p (p.createdAt.getD localNow)) = true
    · unfold applyRealtimeMessage
      simp only []
      rw [if_pos h]
      exact hnd
    · unfold applyRealtimeMessage
      simp only []
      rw [if_neg h, List.map_append]
      refine List.Nodup.append hnd (List.nodup_singleton _) ?_
      intro a ha hb
      simp only [List.map_cons, List.map_nil, List.mem_singleton] at hb
      subst hb
      rcases List.mem_map.mp ha with ⟨m, hm, hid⟩
      exact h (List.any_eq_true.mpr ⟨m, hm, by simp [hid]⟩)

/-- Concrete state for the C9 witness. -/
def c9State : AppState :=
  { currentUser := some exPm, conversations := [mkConv "c1" .assigned none 0 3],
    messages := [{ id := "m1", conversationId := "c1", senderType := .visitor,
                   senderName := "Visitor 17", body := "hi", photoUri := none,
                   createdAt := 3 }],
    maintenanceRequests := [], visitNotes := [] }

/-- Concrete duplicate payload for the C9 witness. -/
def c9Payload : RealtimeMessagePayload :=
  { id := some "m1", conversationId := "c1", senderType := .visitor,
    senderName := "Visitor 17", body := "hi", photoUri := none,
    createdAt := some 3 }

/-- Witness for C9 at a concrete state and duplicate payload. -/
theorem applyRealtimeMessage_dedup_witness :
    ((c9State.messages.any fun item =>
        item.id == realtimeMessageId c9Payload (c9Payload.createdAt.getD 9)) = true) ∧
    (applyRealtimeMessage c9State c9Payload 9).messages = c9State.messages :=
  ⟨by decide, (applyRealtimeMessage_dedup c9State c9Payload 9).1 (by decide)⟩

/-- C2: for every signed-in user, sending to the id of a conversation
whose status is `closed` (with non-empty text or a photo) throws the
closed-conversation error, performs no network call, and leaves the state
(message list and conversation list included) exactly unchanged.
Conversation ids are assumed pairwise distinct so that the id lookup
resolves to the closed conversation. -/
theorem sendMessage_closed_rejected (s : AppState) (u : PmUser) (c : Conversation)
    (text : String) (photoUri : Option String) (force : Bool)
    (remote : Except String Message) (maintRemote : Except String SiteVisitNote)
    (hu : s.currentUser = some u)
    (hnd : (s.conversations.map Conversation.id).Nodup)
    (hc : c ∈ s.conversations) (hcl : c.status = .closed)
    (hcontent : jsTrim text ≠ "" ∨ optStrTruthy photoUri = true) :
    sendMessage s c.id text photoUri force remote maintRemote =
      { thrown := some "Cannot send a message to a closed conversation."
        state := s
        networkCalled := false } := by
  have hfind := find_conv_of_nodup hnd hc
  have hclosed : conversationIsClosed s.conversations c.id = true := by
    unfold conversationIsClosed
    rw [hfind]
    simp [hcl]
  have hcond : ¬(jsTrim text = "" ∧ optStrTruthy photoUri = false) := by
    rcases hcontent with h | h
    · exact fun hx => h hx.1
    · intro hx
      rw [hx.2] at h
      exact Bool.false_ne_true h
  unfold sendMessage
  rw [hu]
  dsimp only
  rw [if_neg hcond, if_pos hclosed]

/-- Concrete closed conversation for the C2 witness. -/
def c2Conv : Conversation := mkConv "c1" .closed none 1 3

/-- Concrete state for the C2 witness. -/
def c2State : AppState :=
  { currentUser := some exPm, conversations := [c2Conv],
    messages := [], maintenanceRequests := [], visitNotes := [] }

/-- Witness for C2 at a concrete closed conversation. -/
theorem sendMessage_closed_rejected_witness :
    (c2Conv ∈ c2State.conversations ∧ c2Conv.status = .closed ∧
      jsTrim "Hello there" ≠ "") ∧
    sendMessage c2State c2Conv.id "Hello there" none false
        (.ok { id := "srv-1", conversationId := "c1", senderType := .pm,
               senderName := "Alice Chen", body := "Hello there",
               photoUri := none, createdAt := 9 })
        (.error "unused") =
      { thrown := some "Cannot send a message to a closed conversation."
        state := c2State
        networkCalled := false } :=
  ⟨⟨by decide, by decide, by decide⟩,
    sendMessage_closed_rejected c2State exPm c2Conv "Hello there" none false
      (.ok { id := "srv-1", conversationId := "c1", senderType := .pm,
             senderName := "Alice Chen", body := "Hello there",
             photoUri := none, createdAt := 9 })
      (.error "unused") rfl (by decide) (by decide) (by decide)
      (Or.inl (by decide))⟩

/-- C7: for every signed-in PM/Supervisor and every conversation present
in the list, after `assignConversation` succeeds the matching conversation
has status `assigned`, assignee equal to the acting user's id and unread
count 0, and exactly one new system message whose body references the
acting user's name is appended to the message list. -/
theorem assignConversation_success (s : AppState) (u : PmUser) (c : Conversation)
    (now : Nat) (freshMsgId : String) (s' : AppState)
    (hu : s.currentUser = some u) (hrole : isPmRole (some u.role) = true)
    (hc : c ∈ s.conversations)
    (hok : assignConversation s c.id (.ok ()) now freshMsgId = .ok s') :
    (∃ c' ∈ s'.conversations,
      c'.id = c.id ∧ c'.status = .assigned ∧
      c'.assignedPmId = some u.id ∧ c'.unreadCount = 0) ∧
    s'.messages = s.messages ++
      [{ id := freshMsgId, conversationId := c.id, senderType := .system,
         senderName := "System", body := u.name ++ " accepted handoff from bot.",
         photoUri := none, createdAt := now }] := by
  unfold assignConversation at hok
  rw [hu] at hok
  dsimp only at hok
  rw [if_pos hrole] at hok
  injection hok with h
  subst h
  constructor
  · refine ⟨assignConvUpdate u.id c.id now c, mem_map_sort hc, ?_, ?_, ?_, ?_⟩ <;>
      simp [assignConvUpdate]
  · rfl

/-- Concrete conversation for the C7 witness. -/
def c7Conv : Conversation := mkConv "c2" .new none 4 3

/-- Concrete state for the C7 witness. -/
def c7State : AppState :=
  { currentUser := some exPm, conversations := [c7Conv],
    messages := [], maintenanceRequests := [], visitNotes := [] }

/-- Witness for C7 at a concrete conversation and PM user. -/
theorem assignConversation_success_witness :
    (isPmRole (some exPm.role) = true ∧ c7Conv ∈ c7State.conversations) ∧
    ∃ s', assignConversation c7State c7Conv.id (.ok ()) 8 "msg-8" = .ok s' ∧
      ((∃ c' ∈ s'.conversations,
        c'.id = c7Conv.id ∧ c'.status = .assigned ∧
        c'.assignedPmId = some exPm.id ∧ c'.unreadCount = 0) ∧
      s'.messages = c7State.messages ++
        [{ id := "msg-8", conversationId := c7Conv.id, senderType := .system,
           senderName := "System",
           body := exPm.name ++ " accepted handoff from bot.",
           photoUri := none, createdAt := 8 }]) := by
  have hs : assignConversation c7State c7Conv.id (.ok ()) 8 "msg-8" =
      .ok { currentUser := some exPm
            conversations := [mkConv "c2" .assigned (some "pm-1") 0 8]
            messages := [{ id := "msg-8", conversationId := "c2",
                           senderType := .system, senderName := "System",
                           body := "Alice Chen accepted handoff from bot.",
                           photoUri := none, createdAt := 8 }]
            maintenanceRequests := []
            visitNotes := [] } := by rfl
  exact ⟨⟨by decide, by decide⟩, _, hs,
    assignConversation_success c7State exPm c7Conv 8 "msg-8" _
      rfl (by decide) (by decide) hs⟩

theorem applyMaintenanceNoteState_conversations (s : AppState) (n : SiteVisitNote) :
    (applyMaintenanceNoteState s n).conversations = s.conversations :=
  rfl

theorem closed_after_map_sort {f : Conversation → Conversation}
    (hid : ∀ x, (f x).id = x.id)
    (hst : ∀ x, x.status = .closed → (f x).status = .closed)
    {l : List Conversation} {c : Conversation}
    (hc : c ∈ l) (hcl : c.status = .closed) :
    ∃ c' ∈ sortConversations (l.map f), c'.id = c.id ∧ c'.status = .closed :=
  ⟨f c, mem_map_sort hc, hid c, hst c hcl⟩

theorem markReadUpdate_id (cid : String) (x : Conversation) :
    (markReadUpdate cid x).id = x.id := by
  unfold markReadUpdate
  split <;> rfl

theorem markReadUpdate_status (cid : String) (x : Conversation) :
    (markReadUpdate cid x).status = x.status := by
  unfold markReadUpdate
  split <;> rfl

theorem closeConvUpdate_id (cid : String) (now : Nat) (x : Conversation) :
    (closeConvUpdate cid now x).id = x.id := by
  unfold closeConvUpdate
  split <;> rfl

theorem closeConvUpdate_closed (cid : String) (now : Nat) (x : Conversation)
    (h : x.status = .closed) : (closeConvUpdate cid now x).status = .closed := by
  unfold closeConvUpdate
  split <;> simp [h]

theorem sendConvUpdate_id (a : Bool) (uid cid : String) (now : Nat)
    (x : Conversation) : (sendConvUpdate a uid cid now x).id = x.id := by
  unfold sendConvUpdate
  split <;> rfl

theorem sendConvUpdate_closed (a : Bool) (uid cid : String) (now : Nat)
    (x : Conversation) (h : x.status = .closed) :
    (sendConvUpdate a uid cid now x).status = .closed := by
  unfold sendConvUpdate
  split
  · cases a <;> simp [h]
  · exact h

theorem realtimeConvUpdate_id (cu : Option PmUser) (p : RealtimeMessagePayload)
    (t : Nat) (x : Conversation) : (realtimeConvUpdate cu p t x).id = x.id := by
  unfold realtimeConvUpdate
  split <;> rfl

theorem realtimeConvUpdate_status (cu : Option PmUser) (p : RealtimeMessagePayload)
    (t : Nat) (x : Conversation) :
    (realtimeConvUpdate cu p t x).status = x.status := by
  unfold realtimeConvUpdate
  split <;> rfl

theorem sendMessage_conversations_cases (s : AppState) (cid text : String)
    (photoUri : Option String) (force : Bool) (remote : Except String Message)
    (maintRemote : Except String SiteVisitNote) :
    (sendMessage s cid text photoUri force remote maintRemote).state.conversations
        = s.conversations ∨
    ∃ a uid now,
      (sendMessage s cid text photoUri force remote maintRemote).state.conversations
        = sortConversations (s.conversations.map (sendConvUpdate a uid cid now)) := by
  unfold sendMessage
  cases hu : s.currentUser with
  | none => exact Or.inl rfl
  | some u =>
    dsimp only
    split
    · exact Or.inl rfl
    · split
      · exact Or.inl rfl
      · cases remote with
        | error e => exact Or.inl rfl
        | ok message =>
          dsimp only
          split
          · split
            · exact Or.inr ⟨_, _, _, rfl⟩
            · split
              · exact Or.inr ⟨_, _, _, rfl⟩
              · cases maintRemote with
                | error e => exact Or.inr ⟨_, _, _, rfl⟩
                | ok saved => exact Or.inr ⟨_, _, _, rfl⟩
          · exact Or.inr ⟨_, _, _, rfl⟩

/-- Concrete state with one closed conversation, for the C3 counterexample. -/
def c3State : AppState :=
  { currentUser := some exPm, conversations := [mkConv "c1" .closed none 0 3],
    messages := [], maintenanceRequests := [], visitNotes := [] }

/-- C3 counterexample: `assignConversation` performs no closed-status
check, so a closed conversation is set straight back to `assigned` — the
closed status is not terminal under `assignConversation`. -/
theorem assignConversation_reopens_closed :
    c3State.conversations.map Conversation.status = [.closed] ∧
    (assignConversation c3State "c1" (.ok ()) 5 "m5").map
        (fun st => st.conversations.map Conversation.status) = .ok [.assigned] :=
  ⟨rfl, rfl⟩

/-- C3 (amended): a conversation whose status is `closed` keeps status
`closed` across `markConversationRead`, `sendMessage`,
`closeConversation` and the realtime inbound handler — but not across
`assignConversation`, which re-assigns it unconditionally. -/
theorem closed_is_terminal_outside_assign (s : AppState) (c : Conversation)
    (hc : c ∈ s.conversations) (hcl : c.status = .closed) :
    (∀ cid, ∃ c' ∈ (markConversationRead s cid).conversations,
        c'.id = c.id ∧ c'.status = .closed) ∧
    (∀ cid text photoUri force remote maintRemote,
      ∃ c' ∈ (sendMessage s cid text photoUri force remote
          maintRemote).state.conversations,
        c'.id = c.id ∧ c'.status = .closed) ∧
    (∀ cid remote now mid s', closeConversation s cid remote now mid = .ok s' →
      ∃ c' ∈ s'.conversations, c'.id = c.id ∧ c'.status = .closed) ∧
    (∀ p localNow, ∃ c' ∈ (applyRealtimeMessage s p localNow).conversations,
        c'.id = c.id ∧ c'.status = .closed) := by
  refine ⟨fun cid => ?_,
    fun cid text photoUri force remote maintRemote => ?_,
    fun cid remote now mid s' hok => ?_,
    fun p localNow => ?_⟩
  · exact ⟨markReadUpdate cid c, List.mem_map_of_mem _ hc,
      markReadUpdate_id cid c, by rw [markReadUpdate_status]; exact hcl⟩
  · rcases sendMessage_conversations_cases s cid text photoUri force remote
        maintRemote with h | ⟨a, uid, now, h⟩
    · rw [h]
      exact ⟨c, hc, rfl, hcl⟩
    · rw [h]
      exact closed_after_map_sort (sendConvUpdate_id a uid cid now)
        (sendConvUpdate_closed a uid cid now) hc hcl
  · unfold closeConversation at hok
    split at hok
    · cases remote with
      | error e => exact absurd hok (by simp)
      | ok _ =>
        injection hok with h
        subst h
        exact closed_after_map_sort (closeConvUpdate_id cid now)
          (closeConvUpdate_closed cid now) hc hcl
    · exact absurd hok (by simp)
  · exact closed_after_map_sort
      (realtimeConvUpdate_id s.currentUser p (p.createdAt.getD localNow))
      (fun x hx => by rw [realtimeConvUpdate_status]; exact hx) hc hcl

/-- Concrete closed conversation for the C3 witness. -/
def c3wConv : Conversation := mkConv "c9" .closed none 2 4

/-- Concrete state for the C3 witness. -/
def c3wState : AppState :=
  { currentUser := some exPm, conversations := [c3wConv],
    messages := [], maintenanceRequests := [], visitNotes := [] }

/-- Witness for the amended C3 at a concrete closed conversation. -/
theorem closed_is_terminal_outside_assign_witness :
    (c3wConv ∈ c3wState.conversations ∧ c3wConv.status = .closed) ∧
    (∃ c' ∈ (markConversationRead c3wState "c9").conversations,
      c'.id = c3wConv.id ∧ c'.status = .closed) ∧
    (∃ c' ∈ (sendMessage c3wState "c9" "hi" none false (.error "down")
        (.error "down")).state.conversations,
      c'.id = c3wConv.id ∧ c'.status = .closed) :=
  ⟨⟨by decide, by decide⟩,
    (closed_is_terminal_outside_assign c3wState c3wConv (by decide) (by decide)).1 "c9",
    (closed_is_terminal_outside_assign c3wState c3wConv (by decide)
        (by decide)).2.1 "c9" "hi" none false (.error "down") (.error "down")⟩

/-- Concrete conversation for the C5 counterexample. -/
def c5Conv : Conversation := mkConv "c1" .new none 0 3

/-- Concrete state for the C5 counterexample. -/
def c5State : AppState :=
  { currentUser := some exPm, conversations := [c5Conv],
    messages := [], maintenanceRequests := [], visitNotes := [] }

/-- Concrete realtime payload from the current PM, for C5. -/
def c5Payload : RealtimeMessagePayload :=
  { id := some "m9", conversationId := "c1", senderType := .pm,
    senderName := "Alice Chen", body := "hello", photoUri := none,
    createdAt := some 7 }

/-- Concrete server echo of the same message for a local send, for C5. -/
def c5ServerMsg : Message :=
  { id := "m9", conversationId := "c1", senderType := .pm,
    senderName := "Alice Chen", body := "hello", photoUri := none,
    createdAt := 7 }

/-- C5 counterexample: for the same PM-sent message on a `new`
conversation, the local send moves the conversation to `assigned` with the
sender as assignee, while the realtime handler leaves status and assignee
untouched — the two code paths do not apply the same status/assignee
transition. -/
theorem applyRealtime_not_like_local_send :
    ((applyRealtimeMessage c5State c5Payload 7).conversations.map
        (fun x => (x.status, x.assignedPmId)) =
      [(.new, none)]) ∧
    ((sendMessage c5State "c1" "hello" none false (.ok c5ServerMsg)
        (.error "unused")).state.conversations.map
        (fun x => (x.status, x.assignedPmId)) =
      [(.assigned, some "pm-1")]) :=
  ⟨rfl, rfl⟩

/-- C5 (amended): for every inbound realtime payload, the handler appends
the message (when its resolved id is new) with the payload's sender and
body, and updates the matching conversation's last-activity timestamp as a
local send would; but it leaves status and assignee unchanged, and instead
of zeroing the unread counter it increments it for messages from visitors,
bots, or other PMs. -/
theorem applyRealtimeMessage_spec (s : AppState) (p : RealtimeMessagePayload)
    (localNow : Nat) (c : Conversation)
    (hc : c ∈ s.conversations) (hid : c.id = p.conversationId) :
    (∃ c' ∈ (applyRealtimeMessage s p localNow).conversations,
      c'.id = c.id ∧ c'.status = c.status ∧ c'.assignedPmId = c.assignedPmId ∧
      c'.lastMessageAt = p.createdAt.getD localNow ∧
      c'.unreadCount = c.unreadCount +
        (if bumpsUnread s.currentUser p then 1 else 0)) ∧
    ((s.messages.any fun item =>
        item.id == realtimeMessageId p (p.createdAt.getD localNow)) = false →
      (applyRealtimeMessage s p localNow).messages =
        s.messages ++
          [{ id := realtimeMessageId p (p.createdAt.getD localNow)
             conversationId := p.conversationId
             senderType := p.senderType
             senderName := p.senderName
             body := p.body
             photoUri := p.photoUri
             createdAt := p.createdAt.getD localNow }]) := by
  constructor
  · refine ⟨realtimeConvUpdate s.currentUser p (p.createdAt.getD localNow) c,
      mem_map_sort hc, ?_⟩
    unfold realtimeConvUpdate
    rw [if_pos hid]
    refine ⟨rfl, rfl, rfl, rfl, ?_⟩
    split <;> simp
  · intro h
    unfold applyRealtimeMessage
    dsimp only
    rw [if_neg (by simp [h])]

/-- Concrete conversation for the C5 witness. -/
def c5wConv : Conversation := mkConv "c3" .assigned (some "pm-1") 1 3

/-- Concrete state for the C5 witness. -/
def c5wState : AppState :=
  { currentUser := some exPm, conversations := [c5wConv],
    messages := [], maintenanceRequests := [], visitNotes := [] }

/-- Concrete visitor payload for the C5 witness. -/
def c5wPayload : RealtimeMessagePayload :=
  { id := some "m2", conversationId := "c3", senderType := .visitor,
    senderName := "Visitor 17", body := "any update?", photoUri := none,
    createdAt := some 9 }

/-- Witness for the amended C5 at a concrete visitor payload. -/
theorem applyRealtimeMessage_spec_witness :
    (c5wConv ∈ c5wState.conversations ∧ c5wConv.id = c5wPayload.conversationId) ∧
    (∃ c' ∈ (applyRealtimeMessage c5wState c5wPayload 9).conversations,
      c'.id = c5wConv.id ∧ c'.status = c5wConv.status ∧
      c'.assignedPmId = c5wConv.assignedPmId ∧
      c'.lastMessageAt = c5wPayload.createdAt.getD 9 ∧
      c'.unreadCount = c5wConv.unreadCount +
        (if bumpsUnread c5wState.currentUser c5wPayload then 1 else 0)) :=
  ⟨⟨by decide, by decide⟩,
    (applyRealtimeMessage_spec c5wState c5wPayload 9 c5wConv
        (by decide) (by decide)).1⟩

/-- Concrete state for the C4 counterexample. -/
def c4State : AppState :=
  { currentUser := some exPm, conversations := [],
    messages := [], maintenanceRequests := [], visitNotes := [] }

/-- Whitespace-note, one-photo payload for the C4 counterexample. -/
def c4Payload : AddVisitNoteInput :=
  { propertyId := "p1", unitId := "u1", maintenanceRequestId := none,
    note := "   ", photoUri := none,
    photoUris := ["https://img.example/leak.jpg"] }

/-- C4 counterexample: `addVisitNote` requires a non-empty note
unconditionally; a payload with a whitespace-only note and one photo URI
throws the local validation error and never reaches the remote create
endpoint, even when the backend would accept it. -/
theorem addVisitNote_rejects_photo_only :
    c4Payload.photoUris ≠ [] ∧ jsTrim c4Payload.note = "" ∧
    addVisitNote c4State c4Payload
        (.ok { id := "n1", propertyId := "p1", unitId := "u1",
               maintenanceRequestId := some "mr1", note := "x",
               photoUri := none, photoUris := [], source := none,
               authorName := none, createdAt := 9 })
        (.ok { conversations := [], messages := [],
               maintenanceRequests := [], visitNotes := [] }) =
      .error "Please add note details before saving." :=
  ⟨by decide, by decide, rfl⟩

/-- C4 (amended): `addMaintenanceUpdate` requires a non-empty note or at
least one non-whitespace photo URI — a payload with a whitespace-only note
but a usable photo URI proceeds past local validation to the remote create
endpoint; `addVisitNote`, by contrast, requires a non-empty note
unconditionally and throws a validation error on an empty note even when
photos are present. -/
theorem note_or_photo_validation (s : AppState) (u : PmUser)
    (hu : s.currentUser = some u) :
    (∀ p : AddMaintenanceUpdateInput,
      (∃ r ∈ s.maintenanceRequests, r.id = p.maintenanceRequestId) →
      jsTrim (p.note.getD "") = "" →
      (∃ uri ∈ p.photoUris, jsTrim uri ≠ "") →
      ∃ body, addMaintenanceUpdateRequest s p = .ok (u, body)) ∧
    (∀ p : AddVisitNoteInput, isPmRole (some u.role) = true →
      jsTrim p.note = "" →
      addVisitNoteRequest s p =
        .error "Please add note details before saving.") := by
  constructor
  · rintro p ⟨r, hr, hrid⟩ hnote ⟨uri, huri, hne⟩
    have hnil : normalizePhotoUris p.photoUris p.photoUri ≠ [] :=
      normalizePhotoUris_ne_nil huri hne
    unfold addMaintenanceUpdateRequest
    rw [hu]
    dsimp only
    have hsome : (s.maintenanceRequests.find?
        (fun item => item.id == p.maintenanceRequestId)).isSome := by
      rw [List.find?_isSome]
      exact ⟨r, hr, by simp [hrid]⟩
    rcases Option.isSome_iff_exists.mp hsome with ⟨q, hq⟩
    rw [hq]
    dsimp only
    rw [if_neg (fun hx => hnil hx.2)]
    exact ⟨_, rfl⟩
  · intro p hrole hnote
    unfold addVisitNoteRequest
    rw [hu]
    dsimp only
    rw [if_pos hrole, if_pos hnote]

/-- Concrete maintenance request for the C4 witness. -/
def exMaint : MaintenanceRequest :=
  { id := "mr1", conversationId := some "c1", propertyId := "p1",
    unitId := "u1", title := "Leak", summary := "Kitchen sink leak",
    status := .new, priority := .high,
    dataverseUrl := "https://records.example/mr1", updatedAt := 2 }

/-- Concrete state for the C4 witness. -/
def c4wState : AppState :=
  { currentUser := some exPm, conversations := [],
    messages := [], maintenanceRequests := [exMaint], visitNotes := [] }

/-- Whitespace-note, one-photo maintenance-update payload for the C4
witness. -/
def c4wPayload : AddMaintenanceUpdateInput :=
  { maintenanceRequestId := "mr1", note := some "  ", photoUri := none,
    photoUris := ["https://img.example/a.jpg"], source := none }

/-- Whitespace-note visit-note payload for the C4 witness. -/
def c4wVisitPayload : AddVisitNoteInput :=
  { propertyId := "p1", unitId := "u1", maintenanceRequestId := none,
    note := " ", photoUri := some "https://img.example/b.jpg",
    photoUris := ["https://img.example/b.jpg"] }

/-- Witness for the amended C4 at concrete payloads. -/
theorem note_or_photo_validation_witness :
    (jsTrim "  " = "" ∧ jsTrim "https://img.example/a.jpg" ≠ "") ∧
    (∃ body, addMaintenanceUpdateRequest c4wState c4wPayload = .ok (exPm, body)) ∧
    addVisitNoteRequest c4wState c4wVisitPayload =
      .error "Please add note details before saving." :=
  ⟨⟨by decide, by decide⟩,
    (note_or_photo_validation c4wState exPm rfl).1 c4wPayload
      ⟨exMaint, by decide, rfl⟩ (by decide)
      ⟨"https://img.example/a.jpg", by decide, by decide⟩,
    (note_or_photo_validation c4wState exPm rfl).2 c4wVisitPayload
      (by decide) (by decide)⟩

/-- Concrete state for the C10 counterexample. -/
def c10State : AppState :=
  { currentUser := some exPm, conversations := [], messages := [],
    maintenanceRequests := [], visitNotes := [] }

/-- Un-normalized visit-note payload for the C10 counterexample. -/
def c10Payload : AddVisitNoteInput :=
  { propertyId := "p1", unitId := "u1", maintenanceRequestId := none,
    note := "Leaking faucet", photoUri := none,
    photoUris := ["  https://img.example/a.jpg  ", "https://img.example/a.jpg", ""] }

/-- C10 counterexample: the visit-note create endpoint receives the
caller's payload unchanged — the photo list it is sent keeps empty
entries, untrimmed entries and duplicates, so it is not the normalized
list. -/
theorem addVisitNote_sends_unnormalized_photoUris :
    addVisitNoteRequest c10State c10Payload = .ok (exPm, c10Payload) ∧
    "" ∈ c10Payload.photoUris ∧
    c10Payload.photoUris ≠
      normalizePhotoUris c10Payload.photoUris c10Payload.photoUri := by
  refine ⟨rfl, by decide, fun heq => ?_⟩
  have h := mem_normalizePhotoUris
    (heq ▸ (show "" ∈ c10Payload.photoUris by decide))
  exact h.1 rfl

/-- C10 (amended): every visit note or maintenance update stored locally,
and the photo list sent to the maintenance-update endpoint, is normalized
— whitespace-trimmed, empty entries removed, duplicates removed, at most
8 entries, with the single `photoUri` equal to the first entry (absent
when the list is empty); the visit-note create endpoint, however,
receives the caller's payload unchanged, without normalization. -/
theorem photo_normalization_invariant :
    (∀ ps f, (normalizePhotoUris ps f).length ≤ 8 ∧
      (normalizePhotoUris ps f).Nodup ∧
      (∀ x ∈ normalizePhotoUris ps f,
        x ≠ "" ∧ x ∈ (ps ++ [f.getD ""]).map jsTrim) ∧
      getPrimaryPhotoUri (normalizePhotoUris ps f) =
        (normalizePhotoUris ps f).head?) ∧
    (∀ s p u body, addMaintenanceUpdateRequest s p = .ok (u, body) →
      body.photoUris = normalizePhotoUris p.photoUris p.photoUri ∧
      body.photoUri = getPrimaryPhotoUri body.photoUris) ∧
    (∀ author src saved,
      (mergeMaintenanceUpdateResponse author src saved).photoUris =
        normalizePhotoUris saved.photoUris saved.photoUri ∧
      (mergeMaintenanceUpdateResponse author src saved).photoUri =
        getPrimaryPhotoUri (mergeMaintenanceUpdateResponse author src saved).photoUris) ∧
    (∀ s p u payload, addVisitNoteRequest s p = .ok (u, payload) → payload = p) ∧
    (∀ s p remote bootstrap result,
      addVisitNote s p remote bootstrap = .ok result →
      result.2.photoUris.Nodup ∧ result.2.photoUris.length ≤ 8 ∧
      (∀ x ∈ result.2.photoUris, x ≠ "") ∧
      result.2.photoUri = result.2.photoUris.head?) := by
  refine ⟨fun ps f => ⟨length_normalizePhotoUris_le ps f,
      nodup_normalizePhotoUris ps f,
      fun x hx => mem_normalizePhotoUris hx,
      getPrimaryPhotoUri_eq_head _⟩, ?_, fun author src saved => ⟨rfl, rfl⟩, ?_, ?_⟩
  · intro s p u body h
    unfold addMaintenanceUpdateRequest at h
    cases hcu : s.currentUser with
    | none =>
      rw [hcu] at h
      exact absurd h (by simp)
    | some cu =>
      rw [hcu] at h
      dsimp only at h
      cases hf : s.maintenanceRequests.find?
          (fun item => item.id == p.maintenanceRequestId) with
      | none =>
        rw [hf] at h
        exact absurd h (by simp)
      | some q =>
        rw [hf] at h
        dsimp only at h
        split at h
        · exact absurd h (by simp)
        · injection h with h2
          injection h2 with ha hb
          subst hb
          exact ⟨rfl, rfl⟩
  · intro s p u payload h
    unfold addVisitNoteRequest at h
    cases hcu : s.currentUser with
    | none =>
      rw [hcu] at h
      exact absurd h (by simp)
    | some cu =>
      rw [hcu] at h
      dsimp only at h
      split at h
      · split at h
        · exact absurd h (by simp)
        · injection h with h2
          injection h2 with ha hb
          exact hb.symm
      · exact absurd h (by simp)
  · intro s p remote bootstrap result h
    unfold addVisitNote at h
    cases har : addVisitNoteRequest s p with
    | error e =>
      rw [har] at h
      exact absurd h (by simp)
    | ok pr =>
      rw [har] at h
      obtain ⟨au, payload⟩ := pr
      dsimp only at h
      cases remote with
      | error e => exact absurd h (by simp)
      | ok saved =>
        dsimp only at h
        split at h
        · exact absurd h (by simp)
        · cases bootstrap with
          | error e => exact absurd h (by simp)
          | ok b =>
            injection h with h2
            subst h2
            exact ⟨nodup_normalizePhotoUris _ _,
              length_normalizePhotoUris_le _ _,
              fun x hx => (mem_normalizePhotoUris hx).1,
              getPrimaryPhotoUri_eq_head _⟩

/-- Concrete maintenance-update request body for the C10 witness. -/
def c10wBody : MaintenanceUpdateRequest :=
  { note := "Alice Chen added a photo update."
    photoUri := some "https://img.example/a.jpg"
    photoUris := ["https://img.example/a.jpg"]
    source := .maintenance }

/-- Concrete visit-note payload for the C10 witness. -/
def c10wVNPayload : AddVisitNoteInput :=
  { propertyId := "p1", unitId := "u1", maintenanceRequestId := none,
    note := "Checked the unit", photoUri := none, photoUris := [] }

/-- Concrete server-saved note for the C10 witness. -/
def c10wSaved : SiteVisitNote :=
  { id := "n2", propertyId := "p1", unitId := "u1",
    maintenanceRequestId := some " mr1 ", note := "Checked the unit",
    photoUri := some "x.jpg", photoUris := ["x.jpg", "x.jpg"],
    source := none, authorName := none, createdAt := 11 }

/-- The normalized note `addVisitNote` stores and returns in the C10
witness run. -/
def c10wNormalized : SiteVisitNote :=
  { c10wSaved with
    maintenanceRequestId := some "mr1"
    photoUris := ["x.jpg"]
    photoUri := some "x.jpg"
    source := some .visit
    authorName := some "Alice Chen" }

/-- Witness for the amended C10 at concrete inputs. -/
theorem photo_normalization_invariant_witness :
    ((normalizePhotoUris ["  a  ", "a", ""] none).length ≤ 8 ∧
      getPrimaryPhotoUri (normalizePhotoUris ["  a  ", "a", ""] none) =
        (normalizePhotoUris ["  a  ", "a", ""] none).head?) ∧
    (c10wBody.photoUris =
        normalizePhotoUris c4wPayload.photoUris c4wPayload.photoUri ∧
      c10wBody.photoUri = getPrimaryPhotoUri c10wBody.photoUris) ∧
    c10Payload = c10Payload ∧
    (c10wNormalized.photoUris.Nodup ∧
      c10wNormalized.photoUri = c10wNormalized.photoUris.head?) :=
  ⟨⟨(photo_normalization_invariant.1 ["  a  ", "a", ""] none).1,
    (photo_normalization_invariant.1 ["  a  ", "a", ""] none).2.2.2⟩,
   photo_normalization_invariant.2.1 c4wState c4wPayload exPm c10wBody (by rfl),
   photo_normalization_invariant.2.2.2.1 c10State c10Payload exPm c10Payload (by rfl),
   ⟨(photo_normalization_invariant.2.2.2.2 c4State c10wVNPayload (.ok c10wSaved)
       (.ok ⟨[], [], [], []⟩) (c4State, c10wNormalized) (by rfl)).1,
    (photo_normalization_invariant.2.2.2.2 c4State c10wVNPayload (.ok c10wSaved)
       (.ok ⟨[], [], [], []⟩) (c4State, c10wNormalized) (by rfl)).2.2.2⟩⟩

end SmartService
